import Mathlib

/-!
Verification of the weather client (src/weather.py) against its
natural-language specification.

The embedding models JSON values, Python exception behaviour of the
subscript and dict-get operations used by the extractor, the extractor
`parse_weather_data`, the formatter `display_weather`, the fetcher
`get_weather` (over an abstract HTTP outcome), and `main` (over an
abstract argument vector).
-/

set_option maxHeartbeats 1000000

/-- A JSON value, as produced by decoding the HTTP response body.
Numbers are modelled as integers; no claim depends on numeric values. -/
inductive JSON : Type where
  | null : JSON
  | bool : Bool → JSON
  | num : Int → JSON
  | str : String → JSON
  | arr : List JSON → JSON
  | obj : List (String × JSON) → JSON

/-- The Python exceptions that the subscript and attribute operations used
by `parse_weather_data` can raise.  The except clause on lines 79-81 of
src/weather.py catches exactly `KeyError`, `IndexError` and `TypeError`;
an `AttributeError` propagates out of the function. -/
inductive PyErr : Type where
  | keyError : PyErr
  | indexError : PyErr
  | typeError : PyErr
  | attributeError : PyErr
deriving DecidableEq

/-- First binding of a key in an object, mirroring Python dict lookup
(parsed JSON objects have unique keys). -/
def lookupKey : List (String × JSON) → String → Option JSON
  | [], _ => none
  | (k, v) :: rest, key => if k = key then some v else lookupKey rest key

/-- Python `v.get(key, dflt)`: defined on dicts, returning the stored value
or the default; any non-dict value has no `get` attribute, raising
`AttributeError`. -/
def dictGet : JSON → String → JSON → Except PyErr JSON
  | .obj kvs, key, dflt => .ok ((lookupKey kvs key).getD dflt)
  | _, _, _ => .error .attributeError

/-- Python `v[0]`: first element of a list (IndexError when empty), first
character of a string as a one-character string (IndexError when empty),
`KeyError` on a dict (JSON objects have no integer key), `TypeError` on
any non-subscriptable value. -/
def index0 : JSON → Except PyErr JSON
  | .arr [] => .error .indexError
  | .arr (x :: _) => .ok x
  | .str s =>
    match s.data with
    | [] => .error .indexError
    | c :: _ => .ok (.str (String.mk [c]))
  | .obj _ => .error .keyError
  | _ => .error .typeError

/-- The default `[{}]` used by every container-level `get` in the source. -/
def defaultContainer : JSON := .arr [.obj []]

/-- Python `v.get(key, [{}])[0]`, the container-access pattern of the
extractor. -/
def pyGet0 (v : JSON) (key : String) : Except PyErr JSON :=
  match dictGet v key defaultContainer with
  | .ok w => index0 w
  | .error e => .error e

/-- The flat record built by `parse_weather_data` (the `weather_info`
dict).  `postal_code` is the caller-supplied string; the remaining fields
hold whatever JSON value the document supplied, or the string default. -/
structure WeatherRecord : Type where
  postal_code : String
  location : JSON
  temperature : JSON
  temperature_f : JSON
  condition : JSON
  humidity : JSON
  wind_speed : JSON
  visibility : JSON

/-- The body of the `try` block of `parse_weather_data` (lines 65-78),
with subexpressions evaluated in Python order: the `current` binding
first, then the dict-literal entries left to right. -/
def parseCore (data : JSON) (postal_code : String) : Except PyErr WeatherRecord := do
  let current ← pyGet0 data "current_condition"
  let nearest ← pyGet0 data "nearest_area"
  let areaName ← pyGet0 nearest "areaName"
  let location ← dictGet areaName "value" (.str "Unknown")
  let temperature ← dictGet current "temp_C" (.str "N/A")
  let temperature_f ← dictGet current "temp_F" (.str "N/A")
  let wd ← pyGet0 current "weatherDesc"
  let condition ← dictGet wd "value" (.str "N/A")
  let humidity ← dictGet current "humidity" (.str "N/A")
  let wind_speed ← dictGet current "windspeedKmph" (.str "N/A")
  let visibility ← dictGet current "visibility" (.str "N/A")
  return { postal_code, location, temperature, temperature_f, condition,
           humidity, wind_speed, visibility }

/-- Which exceptions the `except (KeyError, IndexError, TypeError)` clause
of `parse_weather_data` catches. -/
def caughtByParse : PyErr → Bool
  | .keyError => true
  | .indexError => true
  | .typeError => true
  | .attributeError => false

/-- `parse_weather_data` (lines 53-81): `.ok (some r)` models returning the
record, `.ok none` models the caught-exception branch (print the generic
parse-error message, return `None`), `.error e` models an uncaught
exception propagating out of the function. -/
def parse_weather_data (data : JSON) (postal_code : String) :
    Except PyErr (Option WeatherRecord) :=
  match parseCore data postal_code with
  | .ok r => .ok (some r)
  | .error e => if caughtByParse e then .ok none else .error e

/-! Spec-side JSON path navigation, used to state which field paths of the
document are present.  A step into an object requires the key to be bound;
a step `[0]` requires a nonempty array. -/

/-- Spec-side object access: `some` value iff the JSON value is an object
binding the key. -/
def getKey : JSON → String → Option JSON
  | .obj kvs, key => lookupKey kvs key
  | _, _ => none

/-- Spec-side array access `[0]`: `some` head iff the value is a nonempty
array. -/
def getIdx0 : JSON → Option JSON
  | .arr (x :: _) => some x
  | _ => none

/-- Resolution of the path `current_condition[0]`. -/
def currentPath (data : JSON) : Option JSON :=
  (getKey data "current_condition").bind getIdx0

/-- Resolution of `nearest_area[0].areaName[0].value`. -/
def pathLocation (data : JSON) : Option JSON :=
  ((((getKey data "nearest_area").bind getIdx0).bind
      (fun n => getKey n "areaName")).bind getIdx0).bind
    (fun a => getKey a "value")

/-- Resolution of `current_condition[0].temp_C`. -/
def pathTemp_C (data : JSON) : Option JSON :=
  (currentPath data).bind (fun c => getKey c "temp_C")

/-- Resolution of `current_condition[0].temp_F`. -/
def pathTemp_F (data : JSON) : Option JSON :=
  (currentPath data).bind (fun c => getKey c "temp_F")

/-- Resolution of `current_condition[0].weatherDesc[0].value`. -/
def pathCondition (data : JSON) : Option JSON :=
  (((currentPath data).bind (fun c => getKey c "weatherDesc")).bind
      getIdx0).bind (fun w => getKey w "value")

/-- Resolution of `current_condition[0].humidity`. -/
def pathHumidity (data : JSON) : Option JSON :=
  (currentPath data).bind (fun c => getKey c "humidity")

/-- Resolution of `current_condition[0].windspeedKmph`. -/
def pathWindspeed (data : JSON) : Option JSON :=
  (currentPath data).bind (fun c => getKey c "windspeedKmph")

/-- Resolution of `current_condition[0].visibility`. -/
def pathVisibility (data : JSON) : Option JSON :=
  (currentPath data).bind (fun c => getKey c "visibility")

/-- A container binding, when present, holds a nonempty array whose first
element is an object (the shape every present container level must have
for the extractor to complete). -/
def safeLeafContainer : Option JSON → Bool
  | none => true
  | some (.arr (.obj _ :: _)) => true
  | some _ => false

/-- The `current_condition` binding is absent or well-shaped, including
its inner `weatherDesc` container. -/
def safeCurrent : Option JSON → Bool
  | none => true
  | some (.arr (.obj c :: _)) => safeLeafContainer (lookupKey c "weatherDesc")
  | some _ => false

/-- The `nearest_area` binding is absent or well-shaped, including its
inner `areaName` container. -/
def safeNearest : Option JSON → Bool
  | none => true
  | some (.arr (.obj n :: _)) => safeLeafContainer (lookupKey n "areaName")
  | some _ => false

/-- Every present level along the extracted paths has the expected shape:
the document is an object, and each present container key holds a nonempty
array whose first element is an object. -/
def SafeDoc : JSON → Bool
  | .obj kvs =>
      safeCurrent (lookupKey kvs "current_condition") &&
      safeNearest (lookupKey kvs "nearest_area")
  | _ => false

/-- The border line `"="*50`. -/
def borderLine : String := String.mk (List.replicate 50 '=')

/-- `display_weather` (lines 83-103), as the list of strings passed to
`print`, in order.  `now` stands for the formatted
`datetime.now().strftime(...)` timestamp and `toS` for the Python `str`
conversion applied to interpolated values; the record's `postal_code` is
already a string.  A missing record prints nothing. -/
def display_weather (weather_info : Option WeatherRecord) (now : String)
    (toS : JSON → String) : List String :=
  match weather_info with
  | none => []
  | some w =>
      ["\n" ++ borderLine,
       "Weather Information for " ++ toS w.location,
       "Postal Code: " ++ w.postal_code,
       "Date: " ++ now,
       borderLine,
       "Temperature: " ++ toS w.temperature ++ "°C (" ++ toS w.temperature_f ++ "°F)",
       "Condition: " ++ toS w.condition,
       "Humidity: " ++ toS w.humidity ++ "%",
       "Wind Speed: " ++ toS w.wind_speed ++ " km/h",
       "Visibility: " ++ toS w.visibility ++ " km",
       borderLine ++ "\n"]

/-- The outcome of the single HTTP GET issued by `get_weather`: either a
response with a status code and a body (`none` when the body is not valid
JSON, so that `response.json()` raises a decode error), or a transport
failure raising a `requests.exceptions.RequestException` whose text is
`emsg`. -/
inductive FetchOutcome : Type where
  | response : Nat → Option JSON → FetchOutcome
  | transportFailure : String → FetchOutcome

/-- `get_weather` (lines 11-51) over an abstract fetch outcome: the pair
of the returned value (`.ok none` models returning `None`) and the error
messages printed by `get_weather` or `parse_weather_data`.  The status
code is checked first; the body is decoded only on status 200; transport
failures and decode failures are caught and reported; an uncaught
exception from `parse_weather_data` propagates. -/
def get_weather (o : FetchOutcome) (postal_code : String) :
    Except PyErr (Option WeatherRecord) × List String :=
  match o with
  | .transportFailure emsg =>
      (.ok none, ["Error connecting to weather service: " ++ emsg])
  | .response status body =>
      if status = 200 then
        match body with
        | none => (.ok none, ["Error: Invalid response from weather service"])
        | some data =>
            match parse_weather_data data postal_code with
            | .ok (some r) => (.ok (some r), [])
            | .ok none => (.ok none, ["Error: Unable to parse weather data"])
            | .error e => (.error e, [])
      else
        (.ok none,
         ["Error: Failed to retrieve weather data (Status: " ++ toString status ++ ")"])

/-- Observable result of a program run: the process exit code, the lines
printed to standard output, and whether the HTTP request was issued. -/
structure MainResult : Type where
  exitCode : Nat
  output : List String
  madeRequest : Bool

/-- The two usage lines printed on a wrong argument count. -/
def usageLines : List String :=
  ["Usage: python weather.py <postal_code>",
   "Example: python weather.py 10001"]

/-- `main` (lines 105-122), named `mainEntry` since Lean reserves `main`, over the user-supplied arguments
(`sys.argv[1:]`, so `len(sys.argv) != 2` is `args.length ≠ 1`) and an
abstract fetch outcome: wrong argument count prints usage and exits 1
without a request; otherwise the request is made and a missing record
exits 1 after the failure line, while a present record is displayed and
the process exits 0.  An uncaught exception is `.error`. -/
def mainEntry (args : List String) (o : FetchOutcome) (now : String)
    (toS : JSON → String) : Except PyErr MainResult :=
  match args with
  | [postal_code] =>
      let intro :=
        "Retrieving weather information for postal code: " ++ postal_code ++ "..."
      match get_weather o postal_code with
      | (.error e, _) => .error e
      | (.ok (some r), msgs) =>
          .ok ⟨0, [intro] ++ msgs ++ display_weather (some r) now toS, true⟩
      | (.ok none, msgs) =>
          .ok ⟨1, [intro] ++ msgs ++ ["Failed to retrieve weather information."], true⟩
  | _ => .ok ⟨1, usageLines, false⟩

/-! Inversion lemmas for the `Except` computations of the extractor. -/

@[simp]
theorem ok_bind {α β : Type} (a : α) (f : α → Except PyErr β) :
    (Except.ok a >>= f) = f a := rfl

@[simp]
theorem except_pure {α : Type} (a : α) :
    (pure a : Except PyErr α) = Except.ok a := rfl

theorem bind_eq_ok {α β : Type} {x : Except PyErr α} {f : α → Except PyErr β}
    {b : β} : x >>= f = Except.ok b ↔ ∃ a, x = Except.ok a ∧ f a = Except.ok b := by
  cases x with
  | ok a =>
      rw [ok_bind]
      constructor
      · intro h
        exact ⟨a, rfl, h⟩
      · rintro ⟨a2, ha, hf⟩
        injection ha with ha2
        rw [ha2]
        exact hf
  | error e =>
      constructor
      · intro h
        exact Except.noConfusion h
      · rintro ⟨a2, ha, hf⟩
        exact Except.noConfusion ha

theorem dictGet_ok {v dflt w : JSON} {key : String}
    (h : dictGet v key dflt = .ok w) :
    ∃ kvs, v = .obj kvs ∧ w = (lookupKey kvs key).getD dflt := by
  cases v with
  | obj kvs =>
      refine ⟨kvs, rfl, ?_⟩
      injection h with h2
      exact h2.symm
  | null => exact Except.noConfusion h
  | bool b => exact Except.noConfusion h
  | num n => exact Except.noConfusion h
  | str s => exact Except.noConfusion h
  | arr xs => exact Except.noConfusion h

theorem pyGet0_ok_obj {data : JSON} {key : String} {c : List (String × JSON)}
    (h : pyGet0 data key = .ok (.obj c)) :
    ∃ kvs, data = .obj kvs ∧
      ((lookupKey kvs key = none ∧ c = []) ∨
        ∃ rest, lookupKey kvs key = some (.arr (.obj c :: rest))) := by
  cases data with
  | obj kvs =>
      refine ⟨kvs, rfl, ?_⟩
      simp only [pyGet0, dictGet] at h
      cases hl : lookupKey kvs key with
      | none =>
          rw [hl] at h
          simp only [Option.getD, defaultContainer, index0] at h
          injection h with h2
          injection h2 with h3
          exact Or.inl ⟨rfl, h3.symm⟩
      | some v =>
          rw [hl] at h
          simp only [Option.getD] at h
          cases v with
          | arr xs =>
              cases xs with
              | nil => exact Except.noConfusion h
              | cons x rest =>
                  simp only [index0] at h
                  injection h with h2
                  exact Or.inr ⟨rest, by rw [h2]⟩
          | str s =>
              simp only [index0] at h
              cases hs : s.data with
              | nil => rw [hs] at h; exact Except.noConfusion h
              | cons ch t =>
                  rw [hs] at h
                  injection h with h2
                  exact JSON.noConfusion h2
          | obj kvs2 => exact Except.noConfusion h
          | null => exact Except.noConfusion h
          | bool b => exact Except.noConfusion h
          | num n => exact Except.noConfusion h
  | null => exact Except.noConfusion h
  | bool b => exact Except.noConfusion h
  | num n => exact Except.noConfusion h
  | str s => exact Except.noConfusion h
  | arr xs => exact Except.noConfusion h

theorem leafField {data current : JSON} {k1 k2 : String} {d t : JSON}
    (hcur : pyGet0 data k1 = .ok current)
    (hleaf : dictGet current k2 d = .ok t) :
    t = (((getKey data k1).bind getIdx0).bind (fun c => getKey c k2)).getD d := by
  obtain ⟨c, hc, ht⟩ := dictGet_ok hleaf
  subst hc
  obtain ⟨kvs, hd, hcase⟩ := pyGet0_ok_obj hcur
  subst hd
  cases hcase with
  | inl h1 =>
      obtain ⟨hl, hc0⟩ := h1
      subst hc0
      simp only [getKey, hl, Option.bind_none, Option.bind, Option.getD] at ht ⊢
      simpa [lookupKey] using ht
  | inr h1 =>
      obtain ⟨rest, hl⟩ := h1
      simp only [getKey, hl, Option.bind, getIdx0]
      exact ht

theorem nestedField {data mid inner : JSON} {k1 k2 k3 : String} {d t : JSON}
    (h1 : pyGet0 data k1 = .ok mid)
    (h2 : pyGet0 mid k2 = .ok inner)
    (h3 : dictGet inner k3 d = .ok t) :
    t = ((((((getKey data k1).bind getIdx0).bind (fun m => getKey m k2)).bind
        getIdx0).bind (fun a => getKey a k3)).getD d) := by
  obtain ⟨a, ha, ht⟩ := dictGet_ok h3
  subst ha
  obtain ⟨m, hm, hmcase⟩ := pyGet0_ok_obj h2
  subst hm
  obtain ⟨kvs, hd, hdcase⟩ := pyGet0_ok_obj h1
  subst hd
  cases hdcase with
  | inl hc1 =>
      obtain ⟨hl, hm0⟩ := hc1
      subst hm0
      cases hmcase with
      | inl hc2 =>
          obtain ⟨hl2, ha0⟩ := hc2
          subst ha0
          simp only [getKey, hl, Option.bind_none, Option.bind, Option.getD] at ht ⊢
          simpa [lookupKey] using ht
      | inr hc2 =>
          obtain ⟨rest, hl2⟩ := hc2
          simp [lookupKey] at hl2
  | inr hc1 =>
      obtain ⟨rest, hl⟩ := hc1
      cases hmcase with
      | inl hc2 =>
          obtain ⟨hl2, ha0⟩ := hc2
          subst ha0
          simp only [getKey, hl, Option.bind, getIdx0, hl2, Option.bind_none,
            Option.getD] at ht ⊢
          simpa [lookupKey] using ht
      | inr hc2 =>
          obtain ⟨rest2, hl2⟩ := hc2
          simp only [getKey, hl, Option.bind, getIdx0, hl2]
          exact ht

theorem parseCore_fields {data : JSON} {p : String} {r : WeatherRecord}
    (h : parseCore data p = .ok r) :
    r.postal_code = p ∧
    r.location = (pathLocation data).getD (.str "Unknown") ∧
    r.temperature = (pathTemp_C data).getD (.str "N/A") ∧
    r.temperature_f = (pathTemp_F data).getD (.str "N/A") ∧
    r.condition = (pathCondition data).getD (.str "N/A") ∧
    r.humidity = (pathHumidity data).getD (.str "N/A") ∧
    r.wind_speed = (pathWindspeed data).getD (.str "N/A") ∧
    r.visibility = (pathVisibility data).getD (.str "N/A") := by
  simp only [parseCore, bind_eq_ok, except_pure, Except.ok.injEq] at h
  obtain ⟨current, hcur, nearest, hnear, areaName, harea, location, hloc,
    temperature, htc, temperature_f, htf, wd, hwd, condition, hcond,
    humidity, hhum, wind_speed, hws, visibility, hvis, hrec⟩ := h
  subst hrec
  refine ⟨rfl, ?_, ?_, ?_, ?_, ?_, ?_, ?_⟩
  · exact nestedField hnear harea hloc
  · exact leafField hcur htc
  · exact leafField hcur htf
  · exact nestedField hcur hwd hcond
  · exact leafField hcur hhum
  · exact leafField hcur hws
  · exact leafField hcur hvis

theorem parse_ok_elim {data : JSON} {p : String} {r : WeatherRecord}
    (h : parse_weather_data data p = .ok (some r)) :
    parseCore data p = .ok r := by
  unfold parse_weather_data at h
  cases he : parseCore data p with
  | ok r2 =>
      rw [he] at h
      injection h with h2
      injection h2 with h3
      rw [h3]
  | error e =>
      rw [he] at h
      have h2 : (if caughtByParse e = true then (Except.ok none : Except PyErr (Option WeatherRecord))
          else Except.error e) = Except.ok (some r) := h
      cases hc : caughtByParse e with
      | true => rw [hc] at h2; simp at h2
      | false => rw [hc] at h2; simp at h2

theorem parse_ok_intro {data : JSON} {p : String} {r : WeatherRecord}
    (h : parseCore data p = .ok r) :
    parse_weather_data data p = .ok (some r) := by
  unfold parse_weather_data
  rw [h]

theorem safeLeaf_pyGet0 {kvs : List (String × JSON)} {key : String}
    (h : safeLeafContainer (lookupKey kvs key) = true) :
    ∃ c, pyGet0 (.obj kvs) key = .ok (.obj c) := by
  cases hl : lookupKey kvs key with
  | none => exact ⟨[], by simp [pyGet0, dictGet, hl, defaultContainer, index0]⟩
  | some v =>
      rw [hl] at h
      cases v <;> try simp [safeLeafContainer] at h
      case arr xs =>
        cases xs <;> try simp [safeLeafContainer] at h
        case cons x rest =>
          cases x <;> try simp [safeLeafContainer] at h
          case obj c => exact ⟨c, by simp [pyGet0, dictGet, hl, index0]⟩

theorem safeCurrent_steps {kvs : List (String × JSON)}
    (h : safeCurrent (lookupKey kvs "current_condition") = true) :
    ∃ c, pyGet0 (.obj kvs) "current_condition" = .ok (.obj c) ∧
      ∃ w, pyGet0 (.obj c) "weatherDesc" = .ok (.obj w) := by
  cases hl : lookupKey kvs "current_condition" with
  | none =>
      refine ⟨[], by simp [pyGet0, dictGet, hl, defaultContainer, index0], ?_⟩
      exact safeLeaf_pyGet0 (by simp [lookupKey, safeLeafContainer])
  | some v =>
      rw [hl] at h
      cases v <;> try simp [safeCurrent] at h
      case arr xs =>
        cases xs <;> try simp [safeCurrent] at h
        case cons x rest =>
          cases x <;> try simp [safeCurrent] at h
          case obj c =>
            exact ⟨c, by simp [pyGet0, dictGet, hl, index0], safeLeaf_pyGet0 h⟩

theorem safeNearest_steps {kvs : List (String × JSON)}
    (h : safeNearest (lookupKey kvs "nearest_area") = true) :
    ∃ n, pyGet0 (.obj kvs) "nearest_area" = .ok (.obj n) ∧
      ∃ a, pyGet0 (.obj n) "areaName" = .ok (.obj a) := by
  cases hl : lookupKey kvs "nearest_area" with
  | none =>
      refine ⟨[], by simp [pyGet0, dictGet, hl, defaultContainer, index0], ?_⟩
      exact safeLeaf_pyGet0 (by simp [lookupKey, safeLeafContainer])
  | some v =>
      rw [hl] at h
      cases v <;> try simp [safeNearest] at h
      case arr xs =>
        cases xs <;> try simp [safeNearest] at h
        case cons x rest =>
          cases x <;> try simp [safeNearest] at h
          case obj n =>
            exact ⟨n, by simp [pyGet0, dictGet, hl, index0], safeLeaf_pyGet0 h⟩

theorem safe_parseCore_ok {data : JSON} (p : String) (h : SafeDoc data = true) :
    ∃ r, parseCore data p = .ok r := by
  cases data <;> try simp [SafeDoc] at h
  case obj kvs =>
    obtain ⟨h1, h2⟩ := h
    obtain ⟨c, e1, w, ewd⟩ := safeCurrent_steps h1
    obtain ⟨n, e2, a, e3⟩ := safeNearest_steps h2
    refine ⟨⟨p, (lookupKey a "value").getD (.str "Unknown"),
      (lookupKey c "temp_C").getD (.str "N/A"),
      (lookupKey c "temp_F").getD (.str "N/A"),
      (lookupKey w "value").getD (.str "N/A"),
      (lookupKey c "humidity").getD (.str "N/A"),
      (lookupKey c "windspeedKmph").getD (.str "N/A"),
      (lookupKey c "visibility").getD (.str "N/A")⟩, ?_⟩
    simp only [parseCore, e1, e2, e3, ewd, ok_bind, dictGet, except_pure]

theorem parseCore_ok_safe {data : JSON} {p : String} {r : WeatherRecord}
    (h : parseCore data p = .ok r) : SafeDoc data = true := by
  simp only [parseCore, bind_eq_ok, except_pure, Except.ok.injEq] at h
  obtain ⟨current, hcur, nearest, hnear, areaName, harea, location, hloc,
    temperature, htc, temperature_f, htf, wd, hwd, condition, hcond,
    humidity, hhum, wind_speed, hws, visibility, hvis, hrec⟩ := h
  obtain ⟨c, hc, -⟩ := dictGet_ok htc
  subst hc
  obtain ⟨w, hw, -⟩ := dictGet_ok hcond
  subst hw
  obtain ⟨a, ha, -⟩ := dictGet_ok hloc
  subst ha
  obtain ⟨n, hn, hncase⟩ := pyGet0_ok_obj harea
  subst hn
  obtain ⟨kvs, hd, hdcase⟩ := pyGet0_ok_obj hcur
  subst hd
  obtain ⟨kvs2, hd2, hnearcase⟩ := pyGet0_ok_obj hnear
  injection hd2 with hk
  subst hk
  obtain ⟨c2, hc2, hwdcase⟩ := pyGet0_ok_obj hwd
  injection hc2 with hk2
  subst hk2
  simp only [SafeDoc, Bool.and_eq_true]
  constructor
  · cases hdcase with
    | inl hcc => simp [hcc.1, safeCurrent]
    | inr hcc =>
        obtain ⟨rest, hl⟩ := hcc
        rw [hl]
        simp only [safeCurrent]
        cases hwdcase with
        | inl hwd2 => simp [hwd2.1, safeLeafContainer]
        | inr hwd2 =>
            obtain ⟨rest2, hl2⟩ := hwd2
            simp [hl2, safeLeafContainer]
  · cases hnearcase with
    | inl hna => simp [hna.1, safeNearest]
    | inr hna =>
        obtain ⟨rest, hl⟩ := hna
        rw [hl]
        simp only [safeNearest]
        cases hncase with
        | inl han2 => simp [han2.1, safeLeafContainer]
        | inr han2 =>
            obtain ⟨rest2, hl2⟩ := han2
            simp [hl2, safeLeafContainer]

theorem success_iff_safe (data : JSON) (p : String) :
    (∃ r, parse_weather_data data p = .ok (some r)) ↔ SafeDoc data = true := by
  constructor
  · rintro ⟨r, hr⟩
    exact parseCore_ok_safe (parse_ok_elim hr)
  · intro h
    obtain ⟨r, hr⟩ := safe_parseCore_ok p h
    exact ⟨r, parse_ok_intro hr⟩

/-! Classification of the printed lines, used to state the display shape
property.  A data line is a line that renders one of the weather fields of
the record: the location title line or one of the five labelled value
lines (the temperature line carries both the Celsius and the Fahrenheit
value). -/

/-- Whether `pre` is a prefix of `s`, at the character level. -/
def strStartsWith (s pre : String) : Bool := pre.data.isPrefixOf s.data

/-- Whether a printed line renders weather data of the record: it starts
with the location title prefix or with one of the five value labels. -/
def isDataLine (s : String) : Bool :=
  strStartsWith s "Weather Information for " || strStartsWith s "Temperature: " ||
  strStartsWith s "Condition: " || strStartsWith s "Humidity: " ||
  strStartsWith s "Wind Speed: " || strStartsWith s "Visibility: "

theorem strStartsWith_append (pre x : String) :
    strStartsWith (pre ++ x) pre = true := by
  unfold strStartsWith
  rw [List.isPrefixOf_iff_prefix, String.data_append]
  exact List.prefix_append _ _

theorem isPrefixOf_head_ne {c d : Char} (l m : List Char) (h : (c == d) = false) :
    (c :: l).isPrefixOf (d :: m) = false := by
  simp [List.isPrefixOf, h]

theorem strStartsWith_ne (pre chunk x : String) {pc cc : Char}
    {pt ct : List Char} (hp : pre.data = pc :: pt) (hc : chunk.data = cc :: ct)
    (h : (pc == cc) = false) : strStartsWith (chunk ++ x) pre = false := by
  unfold strStartsWith
  rw [String.data_append, hc, hp, List.cons_append]
  exact isPrefixOf_head_ne _ _ h

theorem strStartsWith_ne2 (pre chunk : String) {pc cc : Char}
    {pt ct : List Char} (hp : pre.data = pc :: pt) (hc : chunk.data = cc :: ct)
    (h : (pc == cc) = false) : strStartsWith chunk pre = false := by
  unfold strStartsWith
  rw [hc, hp]
  exact isPrefixOf_head_ne _ _ h

theorem isDataLine_false_append {cc : Char} {ct : List Char} (chunk x : String)
    (hc : chunk.data = cc :: ct)
    (hW : (('W' : Char) == cc) = false) (hT : (('T' : Char) == cc) = false)
    (hC : (('C' : Char) == cc) = false) (hH : (('H' : Char) == cc) = false)
    (hV : (('V' : Char) == cc) = false) :
    isDataLine (chunk ++ x) = false := by
  unfold isDataLine
  rw [strStartsWith_ne "Weather Information for " chunk x rfl hc hW,
    strStartsWith_ne "Temperature: " chunk x rfl hc hT,
    strStartsWith_ne "Condition: " chunk x rfl hc hC,
    strStartsWith_ne "Humidity: " chunk x rfl hc hH,
    strStartsWith_ne "Wind Speed: " chunk x rfl hc hW,
    strStartsWith_ne "Visibility: " chunk x rfl hc hV]
  rfl

theorem isDataLine_false_plain {cc : Char} {ct : List Char} (chunk : String)
    (hc : chunk.data = cc :: ct)
    (hW : (('W' : Char) == cc) = false) (hT : (('T' : Char) == cc) = false)
    (hC : (('C' : Char) == cc) = false) (hH : (('H' : Char) == cc) = false)
    (hV : (('V' : Char) == cc) = false) :
    isDataLine chunk = false := by
  unfold isDataLine
  rw [strStartsWith_ne2 "Weather Information for " chunk rfl hc hW,
    strStartsWith_ne2 "Temperature: " chunk rfl hc hT,
    strStartsWith_ne2 "Condition: " chunk rfl hc hC,
    strStartsWith_ne2 "Humidity: " chunk rfl hc hH,
    strStartsWith_ne2 "Wind Speed: " chunk rfl hc hW,
    strStartsWith_ne2 "Visibility: " chunk rfl hc hV]
  rfl

theorem borderLine_data : borderLine.data = '=' :: List.replicate 49 '=' := rfl

/-! Sample documents and records used by concrete instances. -/

/-- The well-formed document of the specification example. -/
def exampleDoc : JSON :=
  .obj [("current_condition",
          .arr [.obj [("temp_C", .str "20"), ("temp_F", .str "68"),
                      ("weatherDesc", .arr [.obj [("value", .str "Sunny")]]),
                      ("humidity", .str "50"), ("windspeedKmph", .str "10"),
                      ("visibility", .str "10")]]),
        ("nearest_area",
          .arr [.obj [("areaName", .arr [.obj [("value", .str "New York")]])]])]

/-- The record the specification example expects. -/
def exampleRec : WeatherRecord :=
  ⟨"10001", .str "New York", .str "20", .str "68", .str "Sunny",
   .str "50", .str "10", .str "10"⟩

/-- A document supplying only temp_C and humidity. -/
def partialDoc : JSON :=
  .obj [("current_condition",
          .arr [.obj [("temp_C", .str "21"), ("humidity", .str "40")]])]

/-- The record extracted from partialDoc. -/
def partialRec : WeatherRecord :=
  ⟨"99999", .str "Unknown", .str "21", .str "N/A", .str "N/A",
   .str "40", .str "N/A", .str "N/A"⟩

/-- The fully defaulted record for a given postal code. -/
def defaultRec (p : String) : WeatherRecord :=
  ⟨p, .str "Unknown", .str "N/A", .str "N/A", .str "N/A",
   .str "N/A", .str "N/A", .str "N/A"⟩

/-- A document whose location path is present while the six
current-condition paths are missing, because current_condition is the
empty array. -/
def missingPathsDoc : JSON :=
  .obj [("current_condition", .arr []),
        ("nearest_area",
          .arr [.obj [("areaName", .arr [.obj [("value", .str "New York")]])]])]

/-- A document in which current_condition[0] is a number. -/
def typeErrorDoc : JSON := .obj [("current_condition", .arr [.num 5])]

/-- A document whose two top-level containers are present and well typed
while an inner level (weatherDesc) is a number. -/
def innerBadDoc : JSON :=
  .obj [("current_condition", .arr [.obj [("weatherDesc", .num 5)]]),
        ("nearest_area", .arr [.obj []])]

/-- A well-shaped document in which nearest_area is present but areaName
is absent. -/
def safePartialDoc : JSON := .obj [("nearest_area", .arr [.obj []])]

/-! Claims. -/

/-- C1 (counterexample): in missingPathsDoc the location path is present
and the six current-condition paths are missing, yet parse_weather_data
produces no WeatherRecord at all: current_condition is the empty array, so
the subscript [0] raises an IndexError, the generic handler catches it and
the whole extraction returns None instead of a record with defaulted
fields.  This refutes the claim as stated, which asserts that such a
document always yields a record. -/
theorem claim_C1_counterexample :
    pathTemp_C missingPathsDoc = none ∧
    pathLocation missingPathsDoc = some (.str "New York") ∧
    parse_weather_data missingPathsDoc "10001" = .ok none :=
  ⟨rfl, rfl, rfl⟩

/-- C1 (amended): for every JSON document and postal code on which
parse_weather_data does produce a WeatherRecord, the fields of the record
are the document values at the seven nested paths when present and the
defaults (N/A, or Unknown for location) when the path is missing. -/
theorem claim_C1 (data : JSON) (p : String) (r : WeatherRecord)
    (h : parse_weather_data data p = .ok (some r)) :
    r.postal_code = p ∧
    r.location = (pathLocation data).getD (.str "Unknown") ∧
    r.temperature = (pathTemp_C data).getD (.str "N/A") ∧
    r.temperature_f = (pathTemp_F data).getD (.str "N/A") ∧
    r.condition = (pathCondition data).getD (.str "N/A") ∧
    r.humidity = (pathHumidity data).getD (.str "N/A") ∧
    r.wind_speed = (pathWindspeed data).getD (.str "N/A") ∧
    r.visibility = (pathVisibility data).getD (.str "N/A") :=
  parseCore_fields (parse_ok_elim h)

/-- C1 (witness): the amended claim applied to partialDoc, which supplies
temp_C and humidity and omits every other path. -/
theorem claim_C1_witness :
    parse_weather_data partialDoc "99999" = .ok (some partialRec) ∧
    (partialRec.postal_code = "99999" ∧
     partialRec.location = (pathLocation partialDoc).getD (.str "Unknown") ∧
     partialRec.temperature = (pathTemp_C partialDoc).getD (.str "N/A") ∧
     partialRec.temperature_f = (pathTemp_F partialDoc).getD (.str "N/A") ∧
     partialRec.condition = (pathCondition partialDoc).getD (.str "N/A") ∧
     partialRec.humidity = (pathHumidity partialDoc).getD (.str "N/A") ∧
     partialRec.wind_speed = (pathWindspeed partialDoc).getD (.str "N/A") ∧
     partialRec.visibility = (pathVisibility partialDoc).getD (.str "N/A")) :=
  ⟨rfl, claim_C1 partialDoc "99999" partialRec rfl⟩

/-- C2: on the specification example document with postal code 10001, the
extractor returns exactly the expected record. -/
theorem claim_C2 :
    parse_weather_data exampleDoc "10001" = .ok (some exampleRec) := rfl

/-- C9: whenever parse_weather_data succeeds, the returned record carries
all eight fields by construction of WeatherRecord, the postal_code field
is the caller-supplied string verbatim, and every field whose source path
is missing carries its default. -/
theorem claim_C9 (data : JSON) (p : String) (r : WeatherRecord)
    (h : parse_weather_data data p = .ok (some r)) :
    r.postal_code = p ∧
    (pathLocation data = none → r.location = .str "Unknown") ∧
    (pathTemp_C data = none → r.temperature = .str "N/A") ∧
    (pathTemp_F data = none → r.temperature_f = .str "N/A") ∧
    (pathCondition data = none → r.condition = .str "N/A") ∧
    (pathHumidity data = none → r.humidity = .str "N/A") ∧
    (pathWindspeed data = none → r.wind_speed = .str "N/A") ∧
    (pathVisibility data = none → r.visibility = .str "N/A") := by
  obtain ⟨h0, h1, h2, h3, h4, h5, h6, h7⟩ := parseCore_fields (parse_ok_elim h)
  exact ⟨h0,
    fun hn => by rw [h1, hn]; rfl,
    fun hn => by rw [h2, hn]; rfl,
    fun hn => by rw [h3, hn]; rfl,
    fun hn => by rw [h4, hn]; rfl,
    fun hn => by rw [h5, hn]; rfl,
    fun hn => by rw [h6, hn]; rfl,
    fun hn => by rw [h7, hn]; rfl⟩

/-- C9 (witness): the invariant applied to the empty document, whose
record is fully defaulted. -/
theorem claim_C9_witness :
    parse_weather_data (JSON.obj []) "10001" = .ok (some (defaultRec "10001")) ∧
    ((defaultRec "10001").postal_code = "10001" ∧
     (pathLocation (JSON.obj []) = none → (defaultRec "10001").location = .str "Unknown") ∧
     (pathTemp_C (JSON.obj []) = none → (defaultRec "10001").temperature = .str "N/A") ∧
     (pathTemp_F (JSON.obj []) = none → (defaultRec "10001").temperature_f = .str "N/A") ∧
     (pathCondition (JSON.obj []) = none → (defaultRec "10001").condition = .str "N/A") ∧
     (pathHumidity (JSON.obj []) = none → (defaultRec "10001").humidity = .str "N/A") ∧
     (pathWindspeed (JSON.obj []) = none → (defaultRec "10001").wind_speed = .str "N/A") ∧
     (pathVisibility (JSON.obj []) = none → (defaultRec "10001").visibility = .str "N/A")) :=
  ⟨rfl, claim_C9 (JSON.obj []) "10001" (defaultRec "10001") rfl⟩

/-- C10: on the empty JSON object every container defaults, the extraction
succeeds, and the record is fully defaulted with the caller-supplied
postal code; no structural-parse failure is reported. -/
theorem claim_C10 (p : String) :
    parse_weather_data (.obj []) p = .ok (some (defaultRec p)) := rfl

/-- C3 (counterexample): extraction is not total and does not default a
field whose path level has unexpected type: in typeErrorDoc the element
current_condition[0] is the number 5, the attribute access 5.get raises an
AttributeError that the except clause does not catch, and
parse_weather_data raises instead of completing.  Moreover an
out-of-range level (the empty current_condition array) makes the whole
extraction fail rather than default only that field. -/
theorem claim_C3_counterexample :
    parse_weather_data typeErrorDoc "10001" = .error .attributeError ∧
    parse_weather_data (.obj [("current_condition", .arr [])]) "10001" = .ok none :=
  ⟨rfl, rfl⟩

/-- C3 (amended): per-field defaulting is guaranteed only for levels that
are absent as object keys.  For every document in which each present level
along the extracted paths has the expected shape (the document is an
object and each present container key holds a nonempty array whose first
element is an object), parse_weather_data completes without raising,
returns a record, and substitutes the default for every field whose path
is absent. -/
theorem claim_C3 (data : JSON) (p : String) (h : SafeDoc data = true) :
    ∃ r, parse_weather_data data p = .ok (some r) ∧
      (pathLocation data = none → r.location = .str "Unknown") ∧
      (pathTemp_C data = none → r.temperature = .str "N/A") ∧
      (pathTemp_F data = none → r.temperature_f = .str "N/A") ∧
      (pathCondition data = none → r.condition = .str "N/A") ∧
      (pathHumidity data = none → r.humidity = .str "N/A") ∧
      (pathWindspeed data = none → r.wind_speed = .str "N/A") ∧
      (pathVisibility data = none → r.visibility = .str "N/A") := by
  obtain ⟨r, hr⟩ := safe_parseCore_ok p h
  obtain ⟨h0, h1, h2, h3, h4, h5, h6, h7⟩ := parseCore_fields hr
  exact ⟨r, parse_ok_intro hr,
    fun hn => by rw [h1, hn]; rfl,
    fun hn => by rw [h2, hn]; rfl,
    fun hn => by rw [h3, hn]; rfl,
    fun hn => by rw [h4, hn]; rfl,
    fun hn => by rw [h5, hn]; rfl,
    fun hn => by rw [h6, hn]; rfl,
    fun hn => by rw [h7, hn]; rfl⟩

/-- C3 (witness): the amended claim applied to safePartialDoc, a
well-shaped document with nearest_area present and areaName absent. -/
theorem claim_C3_witness :
    SafeDoc safePartialDoc = true ∧
    (∃ r, parse_weather_data safePartialDoc "10001" = .ok (some r) ∧
      (pathLocation safePartialDoc = none → r.location = .str "Unknown") ∧
      (pathTemp_C safePartialDoc = none → r.temperature = .str "N/A") ∧
      (pathTemp_F safePartialDoc = none → r.temperature_f = .str "N/A") ∧
      (pathCondition safePartialDoc = none → r.condition = .str "N/A") ∧
      (pathHumidity safePartialDoc = none → r.humidity = .str "N/A") ∧
      (pathWindspeed safePartialDoc = none → r.wind_speed = .str "N/A") ∧
      (pathVisibility safePartialDoc = none → r.visibility = .str "N/A")) :=
  ⟨rfl, claim_C3 safePartialDoc "10001" rfl⟩

/-- C4 (counterexample): in innerBadDoc both top-level containers are
present and well typed (arrays of objects), yet the whole extraction
fails and returns None, because the inner weatherDesc value 5 is not
subscriptable and the resulting TypeError is caught by the generic
handler; and on the empty document both containers are absent yet the
extraction succeeds.  Both directions of the claimed equivalence fail. -/
theorem claim_C4_counterexample :
    parse_weather_data innerBadDoc "10001" = .ok none ∧
    parse_weather_data (.obj []) "10001" = .ok (some (defaultRec "10001")) :=
  ⟨rfl, rfl⟩

/-- C4 (amended): parse_weather_data returns a record if and only if every
present level along the extracted paths has the expected shape (the
document is an object and each present container key holds a nonempty
array whose first element is an object).  Absent containers and absent
leaf fields never fail the whole operation; a present level of unexpected
type or out of range always does. -/
theorem claim_C4 (data : JSON) (p : String) :
    (∃ r, parse_weather_data data p = .ok (some r)) ↔ SafeDoc data = true :=
  success_iff_safe data p

theorem strStartsWith_append2 (pre a b : String) :
    strStartsWith (pre ++ a ++ b) pre = true := by
  unfold strStartsWith
  rw [List.isPrefixOf_iff_prefix]
  simp only [String.data_append, List.append_assoc]
  exact List.prefix_append _ _

theorem strStartsWith_append4 (pre a b c d : String) :
    strStartsWith (pre ++ a ++ b ++ c ++ d) pre = true := by
  unfold strStartsWith
  rw [List.isPrefixOf_iff_prefix]
  simp only [String.data_append, List.append_assoc]
  exact List.prefix_append _ _

/-- C5: for every present record, the rendered output begins with the
header border chunk (a blank line followed by 50 repeated equals signs)
and ends with the footer border chunk, contains exactly 6 data lines (the
location title line and the five labelled value lines, one line per
weather field of the record), the temperature data line carries the
Celsius and the Fahrenheit value together, and an absent record renders
nothing. -/
theorem claim_C5 (w : WeatherRecord) (now : String) (toS : JSON → String) :
    (display_weather (some w) now toS).head? = some ("\n" ++ borderLine) ∧
    (display_weather (some w) now toS).getLast? = some (borderLine ++ "\n") ∧
    List.countP isDataLine (display_weather (some w) now toS) = 6 ∧
    ("Temperature: " ++ toS w.temperature ++ "°C (" ++ toS w.temperature_f ++ "°F)")
      ∈ display_weather (some w) now toS ∧
    display_weather none now toS = [] := by
  have e1 : isDataLine ("\n" ++ borderLine) = false :=
    isDataLine_false_append "\n" borderLine rfl (by decide) (by decide)
      (by decide) (by decide) (by decide)
  have e2 : isDataLine ("Weather Information for " ++ toS w.location) = true := by
    simp [isDataLine, strStartsWith_append]
  have e3 : isDataLine ("Postal Code: " ++ w.postal_code) = false :=
    isDataLine_false_append "Postal Code: " w.postal_code rfl (by decide)
      (by decide) (by decide) (by decide) (by decide)
  have e4 : isDataLine ("Date: " ++ now) = false :=
    isDataLine_false_append "Date: " now rfl (by decide) (by decide)
      (by decide) (by decide) (by decide)
  have e5 : isDataLine borderLine = false :=
    isDataLine_false_plain borderLine borderLine_data (by decide) (by decide)
      (by decide) (by decide) (by decide)
  have e6 : isDataLine ("Temperature: " ++ toS w.temperature ++ "°C (" ++
      toS w.temperature_f ++ "°F)") = true := by
    simp [isDataLine, strStartsWith_append4]
  have e7 : isDataLine ("Condition: " ++ toS w.condition) = true := by
    simp [isDataLine, strStartsWith_append]
  have e8 : isDataLine ("Humidity: " ++ toS w.humidity ++ "%") = true := by
    simp [isDataLine, strStartsWith_append2]
  have e9 : isDataLine ("Wind Speed: " ++ toS w.wind_speed ++ " km/h") = true := by
    simp [isDataLine, strStartsWith_append2]
  have e10 : isDataLine ("Visibility: " ++ toS w.visibility ++ " km") = true := by
    simp [isDataLine, strStartsWith_append2]
  have e11 : isDataLine (borderLine ++ "\n") = false :=
    isDataLine_false_append borderLine "\n" borderLine_data (by decide)
      (by decide) (by decide) (by decide) (by decide)
  refine ⟨rfl, rfl, ?_, ?_, rfl⟩
  · simp [display_weather, List.countP_cons, e1, e2, e3, e4, e5, e6, e7, e8,
      e9, e10, e11]
  · simp [display_weather]

/-- C6: a response with a non-200 status yields no record, the only
message names that status code, and the run exits with code 1 after the
final failure line. -/
theorem claim_C6 (status : Nat) (body : Option JSON) (pc now : String)
    (toS : JSON → String) (h : status ≠ 200) :
    get_weather (.response status body) pc =
      (.ok none,
       ["Error: Failed to retrieve weather data (Status: " ++ toString status ++ ")"]) ∧
    mainEntry [pc] (.response status body) now toS =
      .ok ⟨1, ["Retrieving weather information for postal code: " ++ pc ++ "...",
               "Error: Failed to retrieve weather data (Status: " ++ toString status ++ ")",
               "Failed to retrieve weather information."], true⟩ := by
  have hg : get_weather (.response status body) pc =
      (.ok none,
       ["Error: Failed to retrieve weather data (Status: " ++ toString status ++ ")"]) := by
    simp only [get_weather]
    rw [if_neg h]
  refine ⟨hg, ?_⟩
  simp only [mainEntry, hg]
  rfl

/-- C6 (witness): the non-200 property applied at status 404. -/
theorem claim_C6_witness :
    (404 ≠ 200) ∧
    (get_weather (.response 404 none) "10001" =
      (.ok none,
       ["Error: Failed to retrieve weather data (Status: " ++ toString 404 ++ ")"]) ∧
     mainEntry ["10001"] (.response 404 none) "2025-01-01 00:00:00" (fun _ => "") =
      .ok ⟨1, ["Retrieving weather information for postal code: " ++ "10001" ++ "...",
               "Error: Failed to retrieve weather data (Status: " ++ toString 404 ++ ")",
               "Failed to retrieve weather information."], true⟩) :=
  ⟨by decide,
   claim_C6 404 none "10001" "2025-01-01 00:00:00" (fun _ => "") (by decide)⟩

/-- C7: a 200 response whose body is not valid JSON yields no record and
exactly the generic decode-error message of the json.JSONDecodeError
handler, not the transport-error message, and the run exits with code 1.
The model follows the except clauses of the source: a body that fails to
decode raises json.JSONDecodeError, which is distinct from
requests.exceptions.RequestException. -/
theorem claim_C7 (pc now : String) (toS : JSON → String) :
    get_weather (.response 200 none) pc =
      (.ok none, ["Error: Invalid response from weather service"]) ∧
    mainEntry [pc] (.response 200 none) now toS =
      .ok ⟨1, ["Retrieving weather information for postal code: " ++ pc ++ "...",
               "Error: Invalid response from weather service",
               "Failed to retrieve weather information."], true⟩ :=
  ⟨rfl, rfl⟩

/-- C8: with zero or with two or more user arguments, the program prints
exactly the two usage lines, exits with code 1, and issues no request. -/
theorem claim_C8 (args : List String) (o : FetchOutcome) (now : String)
    (toS : JSON → String) (h : args.length ≠ 1) :
    mainEntry args o now toS = .ok ⟨1, usageLines, false⟩ := by
  match args with
  | [] => rfl
  | [a] => exact absurd rfl h
  | a :: b :: t => rfl

/-- C8 (witness): the usage property applied to the empty argument
vector. -/
theorem claim_C8_witness :
    (([] : List String).length ≠ 1) ∧
    mainEntry [] (.transportFailure "boom") "2025-01-01 00:00:00" (fun _ => "") =
      .ok ⟨1, usageLines, false⟩ :=
  ⟨by decide,
   claim_C8 [] (.transportFailure "boom") "2025-01-01 00:00:00" (fun _ => "")
     (by decide)⟩

